import Mathlib

/-!
Verification of the retrieval-and-answer-synthesis pipeline of the
`hackwest-project` backend (`app/gemini.py`, `app/routers/ask.py`).

Text is modelled as `List Char` (Python `str` restricted to its character
sequence); floats produced by the code (all of the form `b / 255`,
`score / 20`, `min(_, 1)`) are modelled exactly as rationals.  The external
collaborators (sentence-transformer model, Gemini API, MongoDB store,
PostgreSQL session) are passed in explicitly: the Mongo collection as a list
of documents, the Postgres tables as lists of rows, the model / AI calls as
function arguments returning `Except`.
-/

set_option maxRecDepth 100000

abbrev Str := List Char

def strL (s : String) : Str := s.toList

/-- Python `str.lower()` (ASCII case folding, as used by the code). -/
def lowerL (s : Str) : Str := s.map Char.toLower

/-- Python whitespace (the characters `str.split()` / `str.strip()` use). -/
def isPySpace (c : Char) : Bool :=
  c == ' ' || c == '\t' || c == '\n' || c == '\r' ||
  c == Char.ofNat 11 || c == Char.ofNat 12

/-- Python `str.strip()`. -/
def stripL (s : Str) : Str :=
  ((s.dropWhile isPySpace).reverse.dropWhile isPySpace).reverse

/-- Python `str.split()` (split on whitespace runs, dropping empty pieces). -/
def splitWs : Str → List Str
  | [] => []
  | c :: rest =>
    if isPySpace c then splitWs rest
    else
      match splitWs rest with
      | [] => [[c]]
      | w :: ws =>
        match rest with
        | [] => [[c]]
        | c' :: _ => if isPySpace c' then [c] :: w :: ws else (c :: w) :: ws

/-- Prefix test `pat.isPrefixOf s` on characters, written out. -/
def isPrefixL : Str → Str → Bool
  | [], _ => true
  | _ :: _, [] => false
  | a :: as, b :: bs => a == b && isPrefixL as bs

/-- Python substring test `pat in s` (the empty pattern is in every string). -/
def containsSub (pat : Str) : Str → Bool
  | [] => isPrefixL pat []
  | c :: rest => isPrefixL pat (c :: rest) || containsSub pat rest

/-! ### MD5 (the digest behind `hashlib.md5` used by the embedding fallback) -/

/-- Truncation to a 32-bit word. -/
def w32 (n : Nat) : Nat := n % 4294967296

/-- Bitwise complement inside 32 bits. -/
def lnot32 (x : Nat) : Nat := Nat.xor x 4294967295

/-- 32-bit left rotation. -/
def rotl32 (x c : Nat) : Nat :=
  w32 (Nat.lor (Nat.shiftLeft x c) (Nat.shiftRight x (32 - c)))

/-- The 64 MD5 round constants. -/
def md5K : List Nat :=
  [0xd76aa478, 0xe8c7b756, 0x242070db, 0xc1bdceee,
   0xf57c0faf, 0x4787c62a, 0xa8304613, 0xfd469501,
   0x698098d8, 0x8b44f7af, 0xffff5bb1, 0x895cd7be,
   0x6b901122, 0xfd987193, 0xa679438e, 0x49b40821,
   0xf61e2562, 0xc040b340, 0x265e5a51, 0xe9b6c7aa,
   0xd62f105d, 0x02441453, 0xd8a1e681, 0xe7d3fbc8,
   0x21e1cde6, 0xc33707d6, 0xf4d50d87, 0x455a14ed,
   0xa9e3e905, 0xfcefa3f8, 0x676f02d9, 0x8d2a4c8a,
   0xfffa3942, 0x8771f681, 0x6d9d6122, 0xfde5380c,
   0xa4beea44, 0x4bdecfa9, 0xf6bb4b60, 0xbebfbc70,
   0x289b7ec6, 0xeaa127fa, 0xd4ef3085, 0x04881d05,
   0xd9d4d039, 0xe6db99e5, 0x1fa27cf8, 0xc4ac5665,
   0xf4292244, 0x432aff97, 0xab9423a7, 0xfc93a039,
   0x655b59c3, 0x8f0ccc92, 0xffeff47d, 0x85845dd1,
   0x6fa87e4f, 0xfe2ce6e0, 0xa3014314, 0x4e0811a1,
   0xf7537e82, 0xbd3af235, 0x2ad7d2bb, 0xeb86d391]

/-- The 64 MD5 per-step rotation amounts. -/
def md5S : List Nat :=
  [7, 12, 17, 22, 7, 12, 17, 22, 7, 12, 17, 22, 7, 12, 17, 22,
   5, 9, 14, 20, 5, 9, 14, 20, 5, 9, 14, 20, 5, 9, 14, 20,
   4, 11, 16, 23, 4, 11, 16, 23, 4, 11, 16, 23, 4, 11, 16, 23,
   6, 10, 15, 21, 6, 10, 15, 21, 6, 10, 15, 21, 6, 10, 15, 21]

/-- The MD5 round mixing function. -/
def md5F (i b c d : Nat) : Nat :=
  if i < 16 then Nat.lor (Nat.land b c) (Nat.land (lnot32 b) d)
  else if i < 32 then Nat.lor (Nat.land d b) (Nat.land (lnot32 d) c)
  else if i < 48 then Nat.xor (Nat.xor b c) d
  else Nat.xor c (Nat.lor b (lnot32 d))

/-- The MD5 message-word schedule. -/
def md5G (i : Nat) : Nat :=
  if i < 16 then i
  else if i < 32 then (5 * i + 1) % 16
  else if i < 48 then (3 * i + 5) % 16
  else (7 * i) % 16

/-- One of the 64 MD5 steps on the state `(a, b, c, d)`. -/
def md5Step (m : List Nat) (st : Nat × Nat × Nat × Nat) (i : Nat) :
    Nat × Nat × Nat × Nat :=
  let a := st.1
  let b := st.2.1
  let c := st.2.2.1
  let d := st.2.2.2
  let f := w32 (md5F i b c d + a + md5K.getD i 0 + m.getD (md5G i) 0)
  (d, w32 (b + rotl32 f (md5S.getD i 0)), b, c)

/-- Process one 16-word block, adding the result into the running state. -/
def md5Block (st : Nat × Nat × Nat × Nat) (block : List Nat) :
    Nat × Nat × Nat × Nat :=
  let r := (List.range 64).foldl (md5Step block) st
  (w32 (st.1 + r.1), w32 (st.2.1 + r.2.1),
   w32 (st.2.2.1 + r.2.2.1), w32 (st.2.2.2 + r.2.2.2))

/-- The 8-byte little-endian encoding of the bit length. -/
def lenBytes (n : Nat) : List Nat :=
  (List.range 8).map (fun i => (Nat.shiftRight n (8 * i)) % 256)

/-- MD5 padding: `0x80`, zeros to 56 mod 64, then the 64-bit bit count. -/
def md5Pad (msg : List Nat) : List Nat :=
  let len := msg.length
  let k := (56 + 64 - ((len + 1) % 64)) % 64
  msg ++ [0x80] ++ List.replicate k 0 ++ lenBytes (8 * len)

/-- Decode a byte sequence into little-endian 32-bit words. -/
def bytesToWords : List Nat → List Nat
  | b0 :: b1 :: b2 :: b3 :: rest =>
    (b0 + 256 * b1 + 65536 * b2 + 16777216 * b3) :: bytesToWords rest
  | _ => []

/-- Split a word list into 16-word blocks (structural recursion, so that the
kernel can evaluate it; a padded MD5 message always splits evenly). -/
def chunks16 : List Nat → List (List Nat)
  | [] => []
  | a1 :: a2 :: a3 :: a4 :: a5 :: a6 :: a7 :: a8 ::
      a9 :: a10 :: a11 :: a12 :: a13 :: a14 :: a15 :: a16 :: rest =>
    [a1, a2, a3, a4, a5, a6, a7, a8, a9, a10, a11, a12, a13, a14, a15, a16]
      :: chunks16 rest
  | l => [l]

/-- The MD5 state after absorbing a whole (byte) message. -/
def md5Words (msg : List Nat) : Nat × Nat × Nat × Nat :=
  (chunks16 (bytesToWords (md5Pad msg))).foldl md5Block
    (0x67452301, 0xefcdab89, 0x98badcfe, 0x10325476)

/-- Little-endian byte serialization of a 32-bit word. -/
def wordLE (w : Nat) : List Nat :=
  [w % 256, Nat.shiftRight w 8 % 256, Nat.shiftRight w 16 % 256,
   Nat.shiftRight w 24 % 256]

/-- The digest `hashlib.md5(msg).digest()`: the 16 digest bytes. -/
def md5Bytes (msg : List Nat) : List Nat :=
  let s := md5Words msg
  wordLE s.1 ++ wordLE s.2.1 ++ wordLE s.2.2.1 ++ wordLE s.2.2.2

deriving instance DecidableEq for Except

/-! ### Embedder (`generate_embedding`, gemini.py lines 42-65) -/

/-- The hash-fallback embedding: 384 values, cyclically indexing the MD5
digest bytes of the UTF-8 text and dividing by 255
(`[float(hash_bytes[i % len(hash_bytes)]) / 255.0 for i in range(384)]`). -/
def hashEmbedding (text : List Nat) : List ℚ :=
  let hash_bytes := md5Bytes text
  (List.range 384).map
    (fun i => ((hash_bytes.getD (i % hash_bytes.length) 0 : ℚ)) / 255)

/-- Function `generate_embedding`.  The module-level `embedding_model` global is the
`model` argument (`none` when `sentence_transformers` failed to import); a
loaded model's `encode` may raise, modelled as `Except`.  The source checks
`if not embedding_model` *before* `if not text`, so the fallback path never
reaches the empty-string guard; and the `encode` call is not wrapped in any
`try`, so its errors propagate. -/
def generate_embedding (model : Option (List Nat → Except Str (List ℚ)))
    (text : List Nat) : Except Str (List ℚ) :=
  match model with
  | none => .ok (hashEmbedding text)
  | some encode =>
    if text.isEmpty then .ok (List.replicate 384 (0 : ℚ))
    else encode text

/-! ### Relevance scorer (`search_similar_resources`, gemini.py lines 157-311) -/

/-- A document of the `resources` Mongo collection, as written by
`store_resource_with_embedding` (text fields present and non-null; the
embedding plays no role in search and is omitted). -/
structure MongoDoc where
  docId : Str
  title : Str
  description : Str
  url : Str
  category : Str
  tags : List Str
  owner_id : Option Int
deriving DecidableEq, Repr

/-- Schema `schemas.SearchResult`. -/
structure SearchResult where
  id : Str
  title : Str
  description : Str
  url : Str
  category : Str
  tags : List Str
  similarity_score : ℚ
  owner_id : Option Int
deriving DecidableEq, Repr

/-- The `category_mappings` dict (gemini.py lines 204-217). -/
def category_mappings : List (Str × Str) :=
  [(strL "fitness", strL "Fitness"),
   (strL "gym", strL "Fitness"),
   (strL "exercise", strL "Fitness"),
   (strL "workout", strL "Fitness"),
   (strL "sports", strL "Fitness"),
   (strL "mental", strL "Mental Health"),
   (strL "counseling", strL "Mental Health"),
   (strL "therapy", strL "Mental Health"),
   (strL "library", strL "Library"),
   (strL "tutoring", strL "Education and Academic Help"),
   (strL "academic", strL "Education and Academic Help"),
   (strL "study", strL "Education and Academic Help")]

/-- The `key_terms` list (gemini.py line 228). -/
def key_terms : List Str :=
  [strL "fitness", strL "mental", strL "health", strL "counseling",
   strL "library", strL "tutoring", strL "academic", strL "study",
   strL "gym", strL "exercise", strL "sports"]

/-- Dict lookup `category_mappings[word]` (`none` when `word` is no key). -/
def lookupCat (word : Str) : Option Str :=
  (category_mappings.find? (fun p => p.1 == word)).map (fun p => p.2)

/-- One Mongo search pattern of the `$or` query built by the source. -/
inductive SearchPattern where
  | catEq (label : Str)
  | titleRe (t : Str)
  | descRe (t : Str)
  | tagsRe (t : Str)
  | catRe (t : Str)
deriving DecidableEq, Repr

/-- The `search_patterns` list (lines 219-243): category equality for each
mapped query word, title/description/tags regexes for each key term in the
query, else the general title/description/category scan on the whole query. -/
def buildPatterns (query_lower : Str) : List SearchPattern :=
  let catPats := (splitWs query_lower).filterMap
    (fun w => (lookupCat w).map SearchPattern.catEq)
  let termPats := key_terms.foldr
    (fun t acc =>
      if containsSub t query_lower then
        SearchPattern.titleRe t :: SearchPattern.descRe t ::
          SearchPattern.tagsRe t :: acc
      else acc) []
  let pats := catPats ++ termPats
  if pats.isEmpty then
    [SearchPattern.titleRe query_lower, SearchPattern.descRe query_lower,
     SearchPattern.catRe query_lower]
  else pats

/-- Mongo evaluation of one pattern on a document: field equality for the
category clause, case-insensitive substring containment for the `$regex`
clauses (the regexes the source builds are plain words, or the raw query in
the fallback scan; metacharacter-free patterns behave as substrings), with
array fields matching when some element matches. -/
def matchPattern (d : MongoDoc) : SearchPattern → Bool
  | .catEq label => d.category == label
  | .titleRe t => containsSub (lowerL t) (lowerL d.title)
  | .descRe t => containsSub (lowerL t) (lowerL d.description)
  | .tagsRe t => d.tags.any (fun tag => containsSub (lowerL t) (lowerL tag))
  | .catRe t => containsSub (lowerL t) (lowerL d.category)

/-- Python `" ".join(tags)`. -/
def joinSpace : List Str → Str
  | [] => []
  | [t] => t
  | t :: rest => t ++ strL " " ++ joinSpace rest

/-- The raw relevance score of one document (lines 256-279): +20 once if any
query word maps to the document category, and for each key term contained in
the query +10 / +5 / +3 for title / description / tag containment. -/
def docScore (query_lower : Str) (d : MongoDoc) : Nat :=
  let title_lower := lowerL d.title
  let desc_lower := lowerL d.description
  let category_lower := lowerL d.category
  let tags_lower := lowerL (joinSpace d.tags)
  let catScore :=
    if (splitWs query_lower).any (fun word =>
        match lookupCat word with
        | some label => category_lower == lowerL label
        | none => false)
    then 20 else 0
  let termScore := key_terms.foldl
    (fun acc term =>
      if containsSub term query_lower then
        acc + (if containsSub term title_lower then 10 else 0)
            + (if containsSub term desc_lower then 5 else 0)
            + (if containsSub term tags_lower then 3 else 0)
      else acc) 0
  catScore + termScore

/-- Descending comparison on the attached raw score (`reverse=True` sort). -/
def scoreGE (a b : MongoDoc × Nat) : Prop := b.2 ≤ a.2

instance : DecidableRel scoreGE := fun a b => Nat.decLe b.2 a.2

instance : IsTotal (MongoDoc × Nat) scoreGE :=
  ⟨fun a b => Nat.le_total b.2 a.2⟩

instance : IsTrans (MongoDoc × Nat) scoreGE :=
  ⟨fun _ _ _ h₁ h₂ => Nat.le_trans h₂ h₁⟩

/-- The scored, sorted, truncated document list of one search call: fetch at
most `limit * 2` matching documents in store order, attach raw scores, keep
the strictly positive ones, sort by score descending (stable, like Python
`list.sort`), and take the first `limit`. -/
def searchTop (store : List MongoDoc) (query : Str) (limit : Nat) :
    List (MongoDoc × Nat) :=
  let query_lower := stripL (lowerL query)
  let pats := buildPatterns query_lower
  let docs := (store.filter (fun d => pats.any (fun p => matchPattern d p))).take
    (limit * 2)
  let scored := (docs.map (fun d => (d, docScore query_lower d))).filter
    (fun p => 0 < p.2)
  (List.insertionSort scoreGE scored).take limit

/-- Conversion of a scored document to a `SearchResult`
(`normalized_score = min(relevance_score / 20.0, 1.0)`, lines 290-304). -/
def toSearchResult (p : MongoDoc × Nat) : SearchResult :=
  { id := p.1.docId
    title := p.1.title
    description := p.1.description
    url := p.1.url
    category := p.1.category
    tags := p.1.tags
    similarity_score := min ((p.2 : ℚ) / 20) 1
    owner_id := p.1.owner_id }

/-- Function `search_similar_resources(query, limit, score_threshold)`, the store
passed explicitly and no extra `filters` (as called by the ask pipeline).
The `score_threshold` parameter is accepted and never read, exactly as in
the source. -/
def search_similar_resources (store : List MongoDoc) (query : Str)
    (limit : Nat) (score_threshold : ℚ) : List SearchResult :=
  (searchTop store query limit).map toSearchResult

/-! ### Answer synthesizer (gemini.py lines 314-699)

`GEMINI_AVAILABLE` is the `gemini : Bool` argument; calls to the Gemini
collaborator (`model.generate_content(prompt).text`, including the client
construction inside the same `try`) are the `ai : Str → Except Str Str`
argument, returning the response text or a failure. -/

/-- Python `"\n".join`. -/
def joinNl : List Str → Str
  | [] => []
  | [t] => t
  | t :: rest => t ++ strL "\n" ++ joinNl rest

/-- Python `str(n)` for the `enumerate` counters. -/
def natStr (n : Nat) : Str := (Nat.repr n).toList

/-- Function `generate_educational_response` (lines 462-662): keyword-dispatched
deterministic templates. -/
def generate_educational_response (question : Str) : Str :=
  let question_lower := lowerL question
  if [strL "study", strL "studying", strL "studies", strL "learn",
      strL "learning"].any (fun w => containsSub w question_lower) then
    strL "Great question about studying! Here are some effective study strategies:

**Active Learning Techniques:**
• Use the Pomodoro Technique (25 min focused study, 5 min break)
• Create mind maps and concept diagrams
• Teach the material to someone else
• Use flashcards for memorization
• Practice with past exams and quizzes

**Time Management:**
• Create a study schedule and stick to it
• Study in shorter, focused sessions rather than long cramming
• Find your peak productivity hours
• Eliminate distractions (phone, social media)

**Memory Techniques:**
• Use acronyms and mnemonics
• Connect new information to what you already know
• Use spaced repetition for long-term retention

Would you like specific advice for any particular subject or exam type?"
  else if [strL "time management", strL "schedule", strL "organize",
      strL "productivity"].any (fun w => containsSub w question_lower) then
    strL "Excellent question about time management! Here are proven strategies:

**Planning & Organization:**
• Use a digital or paper planner
• Break large tasks into smaller, manageable chunks
• Set SMART goals (Specific, Measurable, Achievable, Relevant, Time-bound)
• Prioritize tasks using the Eisenhower Matrix

**Daily Habits:**
• Start with your most challenging task first
• Batch similar activities together
• Set specific times for checking email/social media
• Take regular breaks to maintain focus

**Academic-Specific Tips:**
• Create a weekly study schedule
• Use color-coding for different subjects
• Set up a dedicated study space
• Review and adjust your schedule weekly

What specific area of time management would you like to focus on?"
  else if [strL "exam", strL "test", strL "prepare", strL "preparation"].any
      (fun w => containsSub w question_lower) then
    strL "Great question about exam preparation! Here's a comprehensive approach:

**Before the Exam:**
• Start studying early (not the night before!)
• Review all course materials and notes
• Create a study guide with key concepts
• Practice with sample questions and past exams
• Form study groups for discussion and review

**Study Techniques:**
• Use active recall (test yourself without looking at notes)
• Explain concepts out loud or to others
• Create visual aids like diagrams and charts
• Use the Feynman Technique (explain simply)

**During the Exam:**
• Read all questions first and budget your time
• Answer easier questions first to build confidence
• Show your work for partial credit
• Review your answers if time permits

**Test-Taking Strategies:**
• For multiple choice: eliminate obviously wrong answers
• For essays: outline your response first
• Stay calm and manage test anxiety

What type of exam are you preparing for?"
  else if [strL "academic", strL "college", strL "university", strL "school",
      strL "grade", strL "gpa"].any (fun w => containsSub w question_lower) then
    strL "I'd be happy to help with academic success! Here are some key strategies:

**Academic Excellence:**
• Attend all classes and participate actively
• Take detailed notes and review them regularly
• Build relationships with professors and classmates
• Use office hours for clarification and guidance
• Join study groups and academic clubs

**Study Skills:**
• Find your optimal learning style (visual, auditory, kinesthetic)
• Use active learning techniques
• Create a consistent study routine
• Take breaks to avoid burnout

**Campus Resources:**
• Visit the tutoring center for difficult subjects
• Use the library's research resources
• Take advantage of writing centers
• Consider academic advising for course planning

**Wellness & Balance:**
• Maintain a healthy sleep schedule
• Exercise regularly to boost brain function
• Eat nutritious meals
• Manage stress through relaxation techniques

What specific academic area would you like help with?"
  else if [strL "science", strL "biology", strL "chemistry", strL "physics",
      strL "math", strL "mathematics"].any
      (fun w => containsSub w question_lower) then
    strL "Great question about science subjects! Here are effective strategies:

**For Science Courses:**
• Understand concepts before memorizing formulas
• Practice problem-solving regularly
• Draw diagrams and visual representations
• Connect theory to real-world applications
• Use the scientific method in your thinking

**For Math:**
• Practice problems daily, not just before exams
• Understand the underlying concepts, not just procedures
• Work through problems step-by-step
• Use different approaches to solve the same problem
• Don't just memorize formulas - understand when to use them

**Study Techniques:**
• Create concept maps showing relationships
• Use flashcards for definitions and formulas
• Explain problems to study partners
• Work through practice problems without looking at solutions first

**Resources:**
• Use Khan Academy for additional explanations
• Form study groups to work through difficult problems
• Visit office hours for personalized help
• Use online resources and video tutorials

What specific science or math topic are you working on?"
  else if [strL "write", strL "writing", strL "essay", strL "paper",
      strL "report", strL "communication"].any
      (fun w => containsSub w question_lower) then
    strL "Excellent question about writing! Here are proven strategies:

**Writing Process:**
• Start with brainstorming and outlining
• Write a clear thesis statement
• Use the PEEL method (Point, Evidence, Explanation, Link)
• Write multiple drafts and revise thoroughly
• Proofread carefully for grammar and clarity

**Essay Structure:**
• Introduction: Hook, background, thesis
• Body paragraphs: Topic sentence, evidence, analysis
• Conclusion: Restate thesis, summarize key points, broader implications

**Research & Sources:**
• Use credible, academic sources
• Take detailed notes with proper citations
• Avoid plagiarism by paraphrasing and citing properly
• Use the library's research databases

**Writing Resources:**
• Visit the writing center for feedback
• Use grammar checkers as a starting point
• Read your work aloud to catch errors
• Get peer feedback before final submission

**Communication Skills:**
• Practice presentations in front of a mirror
• Use visual aids effectively
• Prepare for questions and discussion
• Practice active listening in conversations

What type of writing or communication project are you working on?"
  else
    strL "I'd be happy to help with that question! As a Texas Tech University educational assistant, I specialize in academic support and campus resources.

For your question about \"" ++ question ++ strL "\", I can help you with:
• Study strategies and academic success tips
• Time management and organization techniques
• Research and writing assistance
• Information about campus resources and services
• General academic guidance

Could you provide more specific details about what you'd like to know? For example:
• Are you looking for study techniques for a particular subject?
• Do you need help with time management or organization?
• Are you seeking information about specific campus resources?
• Would you like advice on academic planning or career preparation?

The more specific you can be, the better I can assist you!"

/-- Function `generate_simple_answer` (lines 665-699): deterministic answer when the
Gemini collaborator is unavailable. -/
def generate_simple_answer (question : Str) (resources : List SearchResult) :
    Str :=
  let question_lower := stripL (lowerL question)
  let greetings := [strL "hi", strL "hello", strL "hey", strL "good morning",
    strL "good afternoon", strL "good evening", strL "how are you",
    strL "what's up", strL "thanks", strL "thank you"]
  let is_greeting := greetings.any (fun g => containsSub g question_lower)
  if is_greeting then
    strL "Hello! I'm your Texas Tech University educational assistant. How can I help you with academic or campus needs today?"
  else if !resources.isEmpty then
    resources.enum.foldl
      (fun acc p =>
        acc ++ natStr (p.1 + 1) ++ strL ". **" ++ p.2.title ++ strL "**\n" ++
        (if p.2.description ≠ [] then
          strL "   " ++ p.2.description.take 100 ++ strL "...\n" else []) ++
        strL "   🔗 " ++ p.2.url ++ strL "\n\n")
      (strL "Here are some relevant resources:\n\n")
  else generate_educational_response question

/-- Function `generate_ai_answer` (lines 383-459): Gemini call with resource context
and fallback to `generate_simple_answer` on failure or empty response. -/
def generate_ai_answer (gemini : Bool) (ai : Str → Except Str Str)
    (question : Str) (resources : List SearchResult) : Str :=
  if !gemini then generate_simple_answer question resources
  else
    let general_greetings := [strL "hi", strL "hello", strL "hey",
      strL "good morning", strL "good afternoon", strL "good evening",
      strL "how are you", strL "what's up", strL "thanks", strL "thank you"]
    let educational_keywords := [strL "what is", strL "explain",
      strL "tell me about", strL "how does", strL "why", strL "when",
      strL "study tips", strL "advice", strL "suggest", strL "recommend",
      strL "best way", strL "tips for", strL "how can i improve"]
    let question_lower := stripL (lowerL question)
    let is_general_greeting :=
      general_greetings.any (fun g => containsSub g question_lower)
    let is_educational_question :=
      educational_keywords.any (fun k => containsSub k question_lower)
    if resources.isEmpty && !is_general_greeting && !is_educational_question
    then
      strL "I couldn't find any relevant resources to answer your question. Please try rephrasing your question or adding more resources to the database."
    else
      let resources_text := joinNl (resources.map (fun r =>
        strL "- **" ++ r.title ++ strL "**: " ++
        (if r.description ≠ [] then r.description
         else strL "No description") ++
        strL " (Category: " ++
        (if r.category ≠ [] then r.category else strL "Uncategorized") ++
        strL ") - 🔗 " ++ r.url))
      let prompt :=
        if is_general_greeting || is_educational_question then
          strL "You are a friendly and knowledgeable educational assistant for Texas Tech University students. 
Current message: " ++ question ++ strL "

You can help with:
- General academic advice and study tips
- Educational concepts and explanations
- College life guidance
- Study strategies and time management
- Academic planning and career advice
- General questions about learning and education

Respond naturally and conversationally. If this is a greeting, introduce yourself as the Texas Tech University educational assistant. 
Be warm, encouraging, and focused on helping students succeed academically. 
If the question is about specific campus resources or services, suggest they ask about those specifically."
        else
          strL "You are a helpful university assistant with access to a comprehensive database of university resources.

The user will ask questions about university resources, services, or general information.
Use the following resources to provide accurate, helpful answers.
Always include relevant links in your response.
If the resources don't fully answer the question, say so and suggest how the user might find more information.

Available Resources:
" ++ resources_text ++ strL "

User Question: " ++ question ++ strL "

Please provide a comprehensive, helpful answer based on the available resources."
      match ai prompt with
      | .ok t => if t ≠ [] then t else generate_simple_answer question resources
      | .error _ => generate_simple_answer question resources

/-- Function `generate_ai_answer_with_context` (lines 314-380): context-aware Gemini
call; any failure falls through to `generate_ai_answer`. -/
def generate_ai_answer_with_context (gemini : Bool)
    (ai : Str → Except Str Str) (question : Str)
    (resources : List SearchResult) (conversation_context : Str)
    (is_greeting : Bool) : Str :=
  let general_greetings := [strL "hi", strL "hello", strL "hey",
    strL "good morning", strL "good afternoon", strL "good evening",
    strL "how are you", strL "what's up"]
  let question_lower := stripL (lowerL question)
  let needs_resource_search :=
    !(general_greetings.any (fun g => containsSub g question_lower))
  let resources_text :=
    if needs_resource_search && !resources.isEmpty then
      resources.enum.foldl
        (fun acc p =>
          acc ++ natStr (p.1 + 1) ++ strL ". **" ++ p.2.title ++
          strL "**\n" ++
          (if p.2.description ≠ [] then
            strL "   " ++ p.2.description ++ strL "\n" else []) ++
          (if p.2.category ≠ [] then
            strL "   📂 Category: " ++ p.2.category ++ strL "\n" else []) ++
          strL "   🔗 " ++ p.2.url ++ strL "\n\n")
        (strL "Relevant resources from the database:\n")
    else []
  let prompt :=
    if is_greeting then
      strL "You are a friendly Texas Tech University educational assistant. 
" ++ conversation_context ++ strL "
Current message: " ++ question ++ strL "

Respond briefly and conversationally. Introduce yourself and ask how you can help with academic or campus needs. Keep it short and welcoming."
    else if !resources.isEmpty then
      strL "You are a helpful Texas Tech University assistant.
" ++ conversation_context ++ strL "
Current question: " ++ question ++ strL "

" ++ resources_text ++ strL "

Provide a concise, helpful answer based on the available resources. Keep it brief and focused. Include relevant resource links when appropriate."
    else
      strL "You are a knowledgeable Texas Tech University educational assistant.
" ++ conversation_context ++ strL "
Current question: " ++ question ++ strL "

Provide a helpful, educational response. Be informative, encouraging, and focused on academic success. 
If it's a general knowledge question, explain it clearly and provide educational value.
If it's about study strategies, provide practical advice.
Keep your response conversational but educational. Don't mention that you're an AI - just be helpful and knowledgeable."
  match ai prompt with
  | .ok t => t
  | .error _ => generate_ai_answer gemini ai question resources

/-! ### Context assembler (`get_user_conversation_context`, lines 702-733) -/

/-- A row of the PostgreSQL `questions` table (`models.Question`). -/
structure Turn where
  user_id : Option Int
  question_text : Str
  answer_text : Str
  created_at : Nat
deriving DecidableEq, Repr

/-- The `ORDER BY created_at DESC` comparison. -/
def turnGE (a b : Turn) : Prop := b.created_at ≤ a.created_at

instance : DecidableRel turnGE := fun a b => Nat.decLe b.created_at a.created_at

instance : IsTotal Turn turnGE := ⟨fun a b => Nat.le_total b.created_at a.created_at⟩

instance : IsTrans Turn turnGE := ⟨fun _ _ _ h₁ h₂ => Nat.le_trans h₂ h₁⟩

/-- The query `db.query(Question).filter(user_id == uid)
.order_by(created_at.desc()).limit(limit).all()`. -/
def recent_questions (db : List Turn) (user_id : Int) (limit : Nat) :
    List Turn :=
  (List.insertionSort turnGE
    (db.filter (fun t => t.user_id == some user_id))).take limit

/-- One rendered history turn: `User: …` / `Assistant: …` with the answer cut
to its first 200 characters and an ellipsis marker. -/
def renderTurn (q : Turn) : Str :=
  strL "User: " ++ q.question_text ++ strL "\n" ++
  strL "Assistant: " ++ q.answer_text.take 200 ++ strL "...\n\n"

/-- Function `get_user_conversation_context(user_id, limit=5)`: empty string for empty
history, else a header followed by the recent turns re-reversed into
chronological order. -/
def get_user_conversation_context (db : List Turn) (user_id : Int)
    (limit : Nat) : Str :=
  let recent := recent_questions db user_id limit
  if recent.isEmpty then []
  else
    (recent.reverse.foldl (fun acc q => acc ++ renderTurn q)
      (strL "Previous conversation context:\n"))

/-! ### Pipeline orchestrator (`ask_question_with_ai`, lines 777-836) -/

/-- Schema `schemas.AskResponse` (the `timestamp` float of `time.time()` is the
`now` argument below). -/
structure AskResponse where
  question : Str
  answer : Str
  relevant_resources : List SearchResult
  user_id : Option Int
  timestamp : ℚ
deriving DecidableEq, Repr

/-- The greeting phrase list of `ask_question_with_ai` (line 798). -/
def ask_greetings : List Str :=
  [strL "hi", strL "hello", strL "hey", strL "good morning",
   strL "good afternoon", strL "good evening", strL "how are you",
   strL "what's up", strL "thanks", strL "thank you"]

/-- The list `campus_resource_indicators` (lines 805-810). -/
def campus_resource_indicators : List Str :=
  [strL "fitness", strL "gym", strL "exercise", strL "sports",
   strL "mental health", strL "counseling", strL "therapy", strL "library",
   strL "campus", strL "university", strL "texas tech", strL "ttu",
   strL "campus resources", strL "university services",
   strL "student services", strL "where can i find", strL "how to access",
   strL "available on campus", strL "campus center", strL "student center"]

/-- Function `ask_question_with_ai(question, user_id, search_type)`.  Here `history` is the
PostgreSQL `questions` table that `get_user_conversation_context` would
read; the source never calls it, so the argument is unused, and the
conversation context passed to `generate_ai_answer_with_context` is the
literal empty string.  `search_type` is likewise accepted and never read.
The response-time local of the source is computed and dropped. -/
def ask_question_with_ai (gemini : Bool) (ai : Str → Except Str Str)
    (store : List MongoDoc) (history : List Turn) (now : ℚ) (question : Str)
    (user_id : Option Int) (search_type : Str) : AskResponse :=
  let question_lower := stripL (lowerL question)
  let is_greeting := ask_greetings.any (fun g => containsSub g question_lower)
  let should_search := campus_resource_indicators.any
    (fun ind => containsSub ind question_lower)
  let similar_resources :=
    if should_search then
      search_similar_resources store question 3 (3 / 10)
    else []
  let answer :=
    if gemini then
      generate_ai_answer_with_context gemini ai question similar_resources []
        is_greeting
    else generate_simple_answer question similar_resources
  { question := question, answer := answer,
    relevant_resources := similar_resources, user_id := user_id,
    timestamp := now }

/-! ### The `/ask` route (`routers/ask.py`, lines 17-76) -/

/-- Schema `schemas.AskRequest`. -/
structure AskRequest where
  question : Str
  user_id : Option Int
  search_type : Str
deriving DecidableEq, Repr

/-- A row of the `search_logs` table (`models.SearchLog`). -/
structure SearchLogRow where
  query : Str
  results_count : Nat
  user_id : Option Int
  search_type : Str
  response_time_ms : Nat
deriving DecidableEq, Repr

/-- A row of the `questions` table as written by the route (the stored
`similarity_score` string is modelled by the rational it renders). -/
structure QuestionRow where
  question_text : Str
  answer_text : Str
  user_id : Option Int
  similarity_score : Option ℚ
deriving DecidableEq, Repr

/-- The PostgreSQL state the route reads and writes. -/
structure PgDb where
  search_logs : List SearchLogRow
  questions : List QuestionRow
deriving DecidableEq, Repr

/-- Exception type `fastapi.HTTPException`. -/
structure HTTPError where
  status_code : Nat
  detail : Str
deriving DecidableEq, Repr

/-- The `/ask` POST handler `ask_question`.  `body` is the outcome of the
`try` block's external work (`await ask_question_with_ai(...)` and the first
commit), `elapsed` the measured wall-clock milliseconds.  On success the
route logs a `SearchLog` with the result count and a `Question` row and
returns the response; on failure it logs a `SearchLog` with zero results and
the elapsed time and re-raises as an HTTP 500. -/
def ask_question (req : AskRequest) (body : Except Str AskResponse)
    (elapsed : Nat) (db : PgDb) : PgDb × Except HTTPError AskResponse :=
  match body with
  | .ok response =>
    let search_log : SearchLogRow :=
      { query := req.question,
        results_count := response.relevant_resources.length,
        user_id := req.user_id, search_type := req.search_type,
        response_time_ms := elapsed }
    let question_row : QuestionRow :=
      { question_text := req.question, answer_text := response.answer,
        user_id := req.user_id,
        similarity_score :=
          response.relevant_resources.head?.map
            (fun r => r.similarity_score) }
    ({ search_logs := db.search_logs ++ [search_log],
       questions := db.questions ++ [question_row] }, .ok response)
  | .error e =>
    let search_log : SearchLogRow :=
      { query := req.question, results_count := 0, user_id := req.user_id,
        search_type := req.search_type, response_time_ms := elapsed }
    ({ search_logs := db.search_logs ++ [search_log],
       questions := db.questions },
     .error { status_code := 500,
              detail := strL "Failed to process question: " ++ e })

/-! ### Concrete inputs used by the counterexamples and witnesses -/

/-- A catalog document in the `Fitness` category. -/
def gymDoc : MongoDoc :=
  { docId := strL "doc1", title := strL "Open Play Courts",
    description := strL "Campus gym facility for recreation",
    url := strL "https://ttu.edu/rec", category := strL "Fitness",
    tags := [strL "gym", strL "recreation"], owner_id := none }

/-- A catalog document with no scoring-relevant words. -/
def quietDoc : MongoDoc :=
  { docId := strL "doc2", title := strL "Quiet Rooms",
    description := strL "Silent spaces", url := strL "https://ttu.edu/quiet",
    category := strL "Misc", tags := [], owner_id := none }

/-- An AI collaborator that returns its prompt (to observe the prompt). -/
def echoAi : Str → Except Str Str := fun p => .ok p

/-- An unavailable AI collaborator. -/
def noAi : Str → Except Str Str := fun _ => .error (strL "unavailable")

/-- A question containing both a greeting phrase and a campus indicator. -/
def q_hi_gym : Str := strL "hi where can i find the gym"

/-- A plain educational question (no greeting phrase, no indicator). -/
def q_photo : Str := strL "what is photosynthesis"

/-- Three stored conversation turns for user 1. -/
def hist1 : List Turn :=
  [{ user_id := some 1, question_text := strL "q1", answer_text := strL "a1",
     created_at := 1 },
   { user_id := some 1, question_text := strL "q2", answer_text := strL "a2",
     created_at := 2 },
   { user_id := some 1, question_text := strL "q3", answer_text := strL "a3",
     created_at := 3 }]

/-- A concrete `/ask` request. -/
def req0 : AskRequest :=
  { question := q_photo, user_id := some 1, search_type := strL "semantic" }

/-- An empty PostgreSQL state. -/
def db0 : PgDb := { search_logs := [], questions := [] }

/-! ### Helper lemmas -/

theorem wordLE_lt {x w : Nat} (h : x ∈ wordLE w) : x < 256 := by
  simp only [wordLE, List.mem_cons, List.not_mem_nil, or_false] at h
  rcases h with h | h | h | h <;> subst h <;>
    exact Nat.mod_lt _ (by norm_num)

theorem md5Bytes_lt {x : Nat} {m : List Nat} (h : x ∈ md5Bytes m) :
    x < 256 := by
  simp only [md5Bytes, List.mem_append] at h
  rcases h with ((h | h) | h) | h <;> exact wordLE_lt h

theorem getD_lt_256 {l : List Nat} (h : ∀ x ∈ l, x < 256) (n : Nat) :
    l.getD n 0 < 256 := by
  induction l generalizing n with
  | nil => simp [List.getD]
  | cons a as ih =>
    cases n with
    | zero => simpa using h a (by simp)
    | succ n =>
      simpa using ih (fun x hx => h x (by simp [hx])) n

theorem hashEmbedding_length (t : List Nat) :
    (hashEmbedding t).length = 384 := by
  simp [hashEmbedding]

theorem hashEmbedding_mem_bounds {t : List Nat} {q : ℚ}
    (h : q ∈ hashEmbedding t) : 0 ≤ q ∧ q ≤ 1 := by
  simp only [hashEmbedding, List.mem_map, List.mem_range] at h
  obtain ⟨i, -, rfl⟩ := h
  have hblt : (md5Bytes t).getD (i % (md5Bytes t).length) 0 < 256 :=
    getD_lt_256 (fun x hx => md5Bytes_lt hx) _
  constructor
  · positivity
  · rw [div_le_one (by norm_num)]
    exact_mod_cast Nat.le_of_lt_succ hblt

theorem hashEmbedding_getD (t : List Nat) {i : Nat} (h : i < 384) :
    (hashEmbedding t).getD i 0 =
      ((md5Bytes t).getD (i % (md5Bytes t).length) 0 : ℚ) / 255 := by
  simp only [hashEmbedding]
  rw [List.getD_eq_getElem?_getD, List.getElem?_map, List.getElem?_range h]
  rfl

/-- The first MD5 digest byte of the empty message is `0xd4 = 212`. -/
theorem md5Bytes_nil_getD :
    (md5Bytes []).getD (0 % (md5Bytes []).length) 0 = 212 := by decide

/-- The hash-fallback embedding of the empty string is not all-zero. -/
theorem hashEmbedding_nil_ne_zero :
    hashEmbedding [] ≠ List.replicate 384 (0 : ℚ) := by
  intro h1
  have h2 := hashEmbedding_getD [] (show (0 : Nat) < 384 by norm_num)
  rw [h1, md5Bytes_nil_getD] at h2
  have h4 : (List.replicate 384 (0 : ℚ)).getD 0 0 = 0 := rfl
  rw [h4] at h2
  norm_num at h2

/-! ### Claims -/

/-- C1 counterexample: in the hash-fallback path (no model loaded), the
empty string does NOT embed to the all-zero vector — the `if not
embedding_model` branch returns the MD5-derived vector before the
empty-string guard is ever reached (`md5("")` starts with byte `0xd4`). -/
theorem claim_C1_counterexample :
    generate_embedding none [] ≠ .ok (List.replicate 384 (0 : ℚ)) := by
  intro h
  exact hashEmbedding_nil_ne_zero (by simpa [generate_embedding] using h)

/-- C1 (amended): `generate_embedding` on the empty string returns the
all-zero vector of length 384 only when a learned model is available; in the
hash-fallback path it returns the MD5-derived vector, which has length 384
but is not all-zero. -/
theorem claim_C1_amended :
    (∀ encode, generate_embedding (some encode) [] =
      .ok (List.replicate 384 (0 : ℚ)))
    ∧ generate_embedding none [] = .ok (hashEmbedding [])
    ∧ (hashEmbedding []).length = 384
    ∧ hashEmbedding [] ≠ List.replicate 384 (0 : ℚ) :=
  ⟨fun encode => rfl, rfl, hashEmbedding_length [], hashEmbedding_nil_ne_zero⟩

/-- C7 counterexample: a failing `encode` call of a loaded model is NOT
caught: `generate_embedding` propagates the error instead of falling back to
the digest method. -/
theorem claim_C7_counterexample :
    generate_embedding (some (fun _ => .error (strL "model failure"))) [97]
      = .error (strL "model failure") := rfl

/-- C7 (amended): the digest fallback is used only when no model is loaded
(import-time failure); with a model loaded, non-empty text is passed to
`encode` unchanged, so any `encode` failure propagates out of
`generate_embedding`. -/
theorem claim_C7_amended :
    (∀ (encode : List Nat → Except Str (List ℚ)) (t : List Nat), t ≠ [] →
      generate_embedding (some encode) t = encode t)
    ∧ (∀ t, generate_embedding none t = .ok (hashEmbedding t)) := by
  constructor
  · intro encode t ht
    simp [generate_embedding, ht]
  · intro t
    rfl

/-- Witness for C7 (amended) at a concrete model and input. -/
theorem claim_C7_witness :
    generate_embedding (some (fun _ => .ok [(1 : ℚ)])) [104] = .ok [(1 : ℚ)] :=
  claim_C7_amended.1 _ [104] (by decide)

/-- C8 (confirmed): with no model configured, `generate_embedding` is the
pure function `hashEmbedding` of the text (identical inputs give identical
vectors), returning exactly 384 values, each in `[0, 1]`, the `i`-th being
the `i mod 16`-th MD5 digest byte divided by 255. -/
theorem claim_C8 (t : List Nat) :
    generate_embedding none t = .ok (hashEmbedding t)
    ∧ (hashEmbedding t).length = 384
    ∧ (∀ q ∈ hashEmbedding t, 0 ≤ q ∧ q ≤ 1)
    ∧ (∀ i, i < 384 → (hashEmbedding t).getD i 0 =
        ((md5Bytes t).getD (i % (md5Bytes t).length) 0 : ℚ) / 255) :=
  ⟨rfl, hashEmbedding_length t,
   fun _ hq => hashEmbedding_mem_bounds hq,
   fun _ hi => hashEmbedding_getD t hi⟩

/-- Witness for C8 at the empty text and the first vector entry. -/
theorem claim_C8_witness :
    generate_embedding none [] = .ok (hashEmbedding [])
    ∧ (0 ≤ ((md5Bytes []).getD (0 % (md5Bytes []).length) 0 : ℚ) / 255
       ∧ ((md5Bytes []).getD (0 % (md5Bytes []).length) 0 : ℚ) / 255 ≤ 1)
    ∧ (hashEmbedding []).getD 0 0 =
        ((md5Bytes []).getD (0 % (md5Bytes []).length) 0 : ℚ) / 255 :=
  ⟨(claim_C8 []).1,
   (claim_C8 []).2.2.1 _ (by
     simp only [hashEmbedding]
     exact List.mem_map_of_mem _ (by decide)),
   (claim_C8 []).2.2.2 0 (by norm_num)⟩

/-- C10 (confirmed): `score_threshold` is accepted and never read, so two
searches differing only in the threshold return identical results. -/
theorem claim_C10 (store : List MongoDoc) (query : Str) (limit : Nat)
    (t₁ t₂ : ℚ) :
    search_similar_resources store query limit t₁
      = search_similar_resources store query limit t₂ := rfl

/-- C2 counterexample: when the orchestrator call fails, the `/ask` route
does NOT return a generic failure answer — it raises an HTTP 500 (after
logging the failed search). -/
theorem claim_C2_counterexample :
    (ask_question req0 (.error (strL "boom")) 7 db0).2 =
      .error { status_code := 500,
               detail := strL "Failed to process question: boom" } := rfl

/-- C2 (amended): on an unexpected failure the route persists a `SearchLog`
with zero results and the elapsed time (the true part of the claim), then
raises `HTTPException(500)` with the error detail instead of returning a
generic failure answer with an empty candidate list. -/
theorem claim_C2_amended (req : AskRequest) (e : Str) (elapsed : Nat)
    (db : PgDb) :
    ask_question req (.error e) elapsed db =
      ({ search_logs := db.search_logs ++
           [{ query := req.question, results_count := 0,
              user_id := req.user_id, search_type := req.search_type,
              response_time_ms := elapsed }],
         questions := db.questions },
       .error { status_code := 500,
                detail := strL "Failed to process question: " ++ e }) := rfl

/-- C4 counterexample: a question containing the greeting phrase "hi" AND a
campus-resource indicator still invokes the scorer and returns a non-empty
candidate list — greeting detection does not short-circuit the search. -/
theorem claim_C4_counterexample :
    ask_greetings.any
      (fun g => containsSub g (stripL (lowerL q_hi_gym))) = true
    ∧ (ask_question_with_ai false noAi [gymDoc] [] 0 q_hi_gym (some 1)
        (strL "semantic")).relevant_resources ≠ [] :=
  ⟨by decide, by decide⟩

/-- C4 (amended): greeting detection and the resource-search decision are
independent substring checks, not a precedence chain; the scorer is skipped
and the candidate list is empty exactly when the question contains no
campus-resource indicator (which holds for pure greetings such as "hi"). -/
theorem claim_C4_amended (gemini : Bool) (ai : Str → Except Str Str)
    (store : List MongoDoc) (history : List Turn) (now : ℚ) (question : Str)
    (user_id : Option Int) (search_type : Str)
    (h : campus_resource_indicators.any
      (fun ind => containsSub ind (stripL (lowerL question))) = false) :
    (ask_question_with_ai gemini ai store history now question user_id
      search_type).relevant_resources = [] := by
  simp [ask_question_with_ai, h]

/-- Witness for C4 (amended) at the pure greeting "hi". -/
theorem claim_C4_witness :
    (ask_question_with_ai false noAi [gymDoc] [] 0 (strL "hi") (some 1)
      (strL "semantic")).relevant_resources = [] :=
  claim_C4_amended false noAi [gymDoc] [] 0 (strL "hi") (some 1)
    (strL "semantic") (by decide)

/-- C5 counterexample: with stored history for user 1 that the context
assembler would render non-empty, the pipeline's response is identical to
the one with no stored history at all, and the prompt handed to the AI
collaborator (observed through an echoing collaborator) does not contain the
context header — the assembled context is never supplied. -/
theorem claim_C5_counterexample :
    get_user_conversation_context hist1 1 5 ≠ []
    ∧ ask_question_with_ai true echoAi [] hist1 0 q_photo (some 1)
        (strL "semantic")
      = ask_question_with_ai true echoAi [] [] 0 q_photo (some 1)
        (strL "semantic")
    ∧ containsSub (strL "Previous conversation context")
        ((ask_question_with_ai true echoAi [] hist1 0 q_photo (some 1)
          (strL "semantic")).answer) = false :=
  ⟨by decide, rfl, by decide⟩

/-- C5 (amended): `ask_question_with_ai` never reads the conversation
history and always hands the empty context string to answer synthesis, so
the response is independent of the stored history. -/
theorem claim_C5_amended (gemini : Bool) (ai : Str → Except Str Str)
    (store : List MongoDoc) (h h' : List Turn) (now : ℚ) (question : Str)
    (user_id : Option Int) (search_type : Str) :
    ask_question_with_ai gemini ai store h now question user_id search_type
      = ask_question_with_ai gemini ai store h' now question user_id
        search_type := rfl

/-- The per-term scoring fold adds nothing when no listed term occurs in the
query. -/
theorem foldl_score_eq_acc (q tl dl tg : Str) (ts : List Str)
    (h : ∀ t ∈ ts, containsSub t q = false) (acc : Nat) :
    ts.foldl (fun acc term =>
      if containsSub term q then
        acc + (if containsSub term tl then 10 else 0)
            + (if containsSub term dl then 5 else 0)
            + (if containsSub term tg then 3 else 0)
      else acc) acc = acc := by
  induction ts generalizing acc with
  | nil => rfl
  | cons t ts ih =>
    rw [List.foldl_cons, if_neg (by simp [h t (List.mem_cons_self t ts)])]
    exact ih (fun x hx => h x (List.mem_cons_of_mem t hx)) acc

/-- When no query word is a category key and no key term occurs in the
query, every document scores zero. -/
theorem docScore_eq_zero {query_lower : Str}
    (hcat : ∀ w ∈ splitWs query_lower, (lookupCat w).isNone = true)
    (hterm : ∀ t ∈ key_terms, containsSub t query_lower = false)
    (d : MongoDoc) : docScore query_lower d = 0 := by
  have hany : ((splitWs query_lower).any fun word =>
      match lookupCat word with
      | some label => lowerL d.category == lowerL label
      | none => false) = false := by
    rw [List.any_eq_false]
    intro w hw
    have hc := hcat w hw
    cases heq : lookupCat w with
    | none => simp
    | some label => rw [heq] at hc; simp at hc
  simp only [docScore, hany, Bool.false_eq_true, if_false, Nat.zero_add]
  exact foldl_score_eq_acc _ _ _ _ _ hterm 0

/-- C3 counterexample: the claim predicts that an empty query matches every
candidate up to `limit`, but the scorer returns the empty list: the
documents fetched by the fallback substring scan all score zero and are then
discarded by the `score > 0` filter. -/
theorem claim_C3_counterexample :
    [quietDoc] ≠ ([] : List MongoDoc)
    ∧ search_similar_resources [quietDoc] [] 5 (7 / 10) = [] :=
  ⟨by decide, rfl⟩

/-- C3 (amended): when no query term matches any scoring rule (no query word
is a category key and no key term occurs in the query — in particular for
the empty query), the fallback substring scan fetches candidates but every
fetched candidate has raw score 0 and is discarded, so the scorer returns
the empty list, for every store and limit. -/
theorem claim_C3_amended (store : List MongoDoc) (query : Str) (limit : Nat)
    (threshold : ℚ)
    (hcat : ∀ w ∈ splitWs (stripL (lowerL query)), (lookupCat w).isNone = true)
    (hterm : ∀ t ∈ key_terms, containsSub t (stripL (lowerL query)) = false) :
    search_similar_resources store query limit threshold = [] := by
  simp only [search_similar_resources, searchTop]
  have hfilter :
      ((((store.filter (fun d =>
          (buildPatterns (stripL (lowerL query))).any
            (fun p => matchPattern d p))).take (limit * 2)).map
        (fun d => (d, docScore (stripL (lowerL query)) d))).filter
          (fun p => 0 < p.2)) = [] := by
    rw [List.filter_eq_nil_iff]
    intro p hp
    obtain ⟨d, -, rfl⟩ := List.mem_map.mp hp
    simp [docScore_eq_zero hcat hterm d]
  rw [hfilter]
  simp [List.insertionSort]

/-- Witness for C3 (amended): a query with no rule-matching term against a
store holding a matching-by-substring document. -/
theorem claim_C3_witness :
    search_similar_resources [quietDoc] (strL "zzz quiet") 2 (1 / 2) = [] :=
  claim_C3_amended [quietDoc] (strL "zzz quiet") 2 (1 / 2) (by decide)
    (by decide)

/-- C6 (confirmed): every search returns at most `limit` results, keeps only
candidates with strictly positive raw score, orders them by raw score
descending, and maps each raw score `s` to `similarity_score =
min(s / 20, 1) ∈ [0, 1]`. -/
theorem claim_C6 (store : List MongoDoc) (query : Str) (limit : Nat)
    (threshold : ℚ) :
    search_similar_resources store query limit threshold
      = (searchTop store query limit).map toSearchResult
    ∧ (search_similar_resources store query limit threshold).length ≤ limit
    ∧ List.Sorted scoreGE (searchTop store query limit)
    ∧ (∀ p ∈ searchTop store query limit, 0 < p.2)
    ∧ (∀ p ∈ searchTop store query limit,
        (toSearchResult p).similarity_score = min ((p.2 : ℚ) / 20) 1
        ∧ 0 ≤ (toSearchResult p).similarity_score
        ∧ (toSearchResult p).similarity_score ≤ 1) := by
  refine ⟨rfl, ?_, ?_, ?_, ?_⟩
  · rw [search_similar_resources, List.length_map]
    exact List.length_take_le _ _
  · exact List.Pairwise.sublist (List.take_sublist _ _)
      (List.sorted_insertionSort scoreGE _)
  · intro p hp
    simp only [searchTop] at hp
    have h2 := (List.mem_insertionSort scoreGE).mp (List.mem_of_mem_take hp)
    exact of_decide_eq_true (List.mem_filter.mp h2).2
  · intro p _
    exact ⟨rfl, le_min (by positivity) zero_le_one, min_le_right _ _⟩

/-- Witness for C6 at a concrete one-document search for "gym" (raw score
`20 + 5 + 3 = 28`). -/
theorem claim_C6_witness :
    0 < (gymDoc, 28).2
    ∧ ((toSearchResult (gymDoc, 28)).similarity_score
        = min ((28 : ℚ) / 20) 1
      ∧ 0 ≤ (toSearchResult (gymDoc, 28)).similarity_score
      ∧ (toSearchResult (gymDoc, 28)).similarity_score ≤ 1) :=
  ⟨(claim_C6 [gymDoc] (strL "gym") 3 0).2.2.2.1 (gymDoc, 28) (by decide),
   (claim_C6 [gymDoc] (strL "gym") 3 0).2.2.2.2 (gymDoc, 28) (by decide)⟩

/-- C9 (confirmed): for a user with more than `limit` stored turns, context
assembly renders exactly `limit` turns, in chronological order (the
newest-first query result is reversed), each with the answer truncated to at
most 200 characters before the ellipsis marker; a user with empty history
gets the empty string. -/
theorem claim_C9 (db : List Turn) (uid : Int) (limit : Nat)
    (hpos : 0 < limit)
    (hlen : limit < (db.filter (fun t => t.user_id == some uid)).length) :
    (recent_questions db uid limit).length = limit
    ∧ List.Sorted (fun a b : Turn => a.created_at ≤ b.created_at)
        ((recent_questions db uid limit).reverse)
    ∧ get_user_conversation_context db uid limit
      = (recent_questions db uid limit).reverse.foldl
          (fun acc q => acc ++ renderTurn q)
          (strL "Previous conversation context:\n")
    ∧ (∀ q ∈ recent_questions db uid limit,
        (q.answer_text.take 200).length ≤ 200)
    ∧ (∀ (db' : List Turn) (uid' : Int) (lim' : Nat),
        db'.filter (fun t => t.user_id == some uid') = [] →
        get_user_conversation_context db' uid' lim' = []) := by
  have hlength : (recent_questions db uid limit).length = limit := by
    simp only [recent_questions, List.length_take, List.length_insertionSort]
    omega
  refine ⟨hlength, ?_, ?_, ?_, ?_⟩
  · have hs : List.Sorted turnGE (recent_questions db uid limit) :=
      List.Pairwise.sublist (List.take_sublist _ _)
        (List.sorted_insertionSort turnGE _)
    exact List.pairwise_reverse.mpr hs
  · have hne : (recent_questions db uid limit).isEmpty = false := by
      cases hrq : recent_questions db uid limit with
      | nil => rw [hrq] at hlength; simp at hlength; omega
      | cons a l => rfl
    simp only [get_user_conversation_context, hne, Bool.false_eq_true,
      if_false]
  · intro q _
    exact List.length_take_le _ _
  · intro db' uid' lim' h
    simp [get_user_conversation_context, recent_questions, h,
      List.insertionSort]

/-- Witness for C9: three stored turns for user 1, `limit = 2`. -/
theorem claim_C9_witness : (recent_questions hist1 1 2).length = 2 :=
  (claim_C9 hist1 1 2 (by decide) (by decide)).1
